import Mathlib

/-!
Verification development for the evergreen multi-agent roadmap system.

The Lean definitions below are shallow embeddings of the Python source:

* `RoadmapRow`, `CustomerRow` — rows of the `roadmap_items` and `customers`
  tables created by `init_db` (src/backend/src/database.py,
  src/pipeline/src/database.py).
* `searchRoadmapMcp` — `search_roadmap` from src/packages/db_mcp/server.py.
* `searchRoadmapDb` — `search_roadmap` from src/pipeline/src/database.py and
  src/backend/src/database.py.
* `filterNewItems` — `filter_new_items` from
  src/packages/pipeline/src/ingestion.py (identical in
  src/packages/ingestion/src/ingestion.py).
* `upsertRoadmapItems` — `upsert_roadmap_items` from
  src/pipeline/src/database.py.
* `ingestRoadmap` — `ingest_roadmap` from src/src/ingestion.py.
* `addCustomer` — `add_customer` from src/backend/src/database.py together
  with the UNIQUE constraint on `customers.name`.
* `handleToolCallCustomer`, `handleToolCallOrchestrator` — the tool
  dispatchers of src/backend/src/agents/customer_agent.py and
  src/packages/backend/src/agents/orchestrator.py.
* `agentQuery` — the tool-calling conversation loop of
  `RoadmapAgent.query` / `OrchestratorAgent.query`
  (src/packages/backend/src/agents/roadmap_agent.py,
  src/packages/backend/src/agents/orchestrator.py).

External collaborators (the pgvector cosine-distance operator, the Gemini
embedding API, the feed timestamp parser `datetime.fromisoformat`, the
scripted conversational model and the routed sub-agents) are modelled as
function parameters: the theorems hold for every instantiation of those
parameters, in particular for the real ones.

SQL timestamps (`CURRENT_TIMESTAMP`) are modelled as `Nat` instants passed
in explicitly; feed timestamps are modelled as `Int` values produced by the
parse parameter.
-/

/-- A stored row of the `roadmap_items` table, as created by `init_db`:
`id` is the primary key; `products`, `platforms`, `cloud_instances` are the
comma-joined denormalized tag lists; `document` is the denormalized text;
`embedding` is the vector column (rationals stand for the stored floats). -/
structure RoadmapRow where
  id : Int
  title : String
  description : String
  status : String
  release_date : Option String
  products : String
  platforms : String
  cloud_instances : String
  release_phase : Option String
  document : String
  embedding : List ℚ
  created_at : Nat
  updated_at : Nat
deriving DecidableEq

/-- The `RoadmapItem` pydantic model shared by the database layers. -/
structure RoadmapItem where
  id : Int
  title : String
  description : String
  status : String
  public_disclosure_date : Option String
  products : List String
  platforms : List String
  cloud_instances : List String
  release_phase : Option String
deriving DecidableEq

/-- The `document` string built inside `upsert_roadmap_items`
(src/pipeline/src/database.py lines 125-129). -/
def buildDocument (item : RoadmapItem) : String :=
  item.title ++ "\n\n" ++ item.description ++ "\n\nStatus: " ++ item.status ++
    "\nProducts: " ++ String.intercalate ", " item.products ++
    "\nPlatforms: " ++ String.intercalate ", " item.platforms

/-- The fresh row inserted for `item` by the INSERT of `upsert_roadmap_items`
at time `now` (`created_at` and `updated_at` both default to
CURRENT_TIMESTAMP); `embed` stands for `get_embedding` applied to the
document string. -/
def upsertRow (embed : String → List ℚ) (now : Nat) (item : RoadmapItem) : RoadmapRow :=
  { id := item.id
    title := item.title
    description := item.description
    status := item.status
    release_date := item.public_disclosure_date
    products := String.intercalate "," item.products
    platforms := String.intercalate "," item.platforms
    cloud_instances := String.intercalate "," item.cloud_instances
    release_phase := item.release_phase
    document := buildDocument item
    embedding := embed (buildDocument item)
    created_at := now
    updated_at := now }

/-- The ON CONFLICT (id) DO UPDATE branch of `upsert_roadmap_items`: every
mutable column is replaced from the excluded row, `updated_at` is set to
CURRENT_TIMESTAMP, while `id` and `created_at` are untouched. -/
def applyConflictUpdate (embed : String → List ℚ) (now : Nat) (r : RoadmapRow)
    (item : RoadmapItem) : RoadmapRow :=
  { upsertRow embed now item with id := r.id, created_at := r.created_at }

/-- One iteration of the loop in `upsert_roadmap_items`
(src/pipeline/src/database.py lines 124-169): INSERT ... ON CONFLICT (id)
DO UPDATE over a table modelled as a list of rows. -/
def upsertOne (embed : String → List ℚ) (now : Nat) (table : List RoadmapRow)
    (item : RoadmapItem) : List RoadmapRow :=
  if table.any (fun r => r.id == item.id) then
    table.map (fun r => if r.id == item.id then applyConflictUpdate embed now r item else r)
  else
    table ++ [upsertRow embed now item]

/-- `upsert_roadmap_items`: upserts each item in order, counting them; all
statements of one call share the same CURRENT_TIMESTAMP `now`. -/
def upsertRoadmapItems (embed : String → List ℚ) (now : Nat) (table : List RoadmapRow)
    (items : List RoadmapItem) : Nat × List RoadmapRow :=
  items.foldl (fun acc item => (acc.1 + 1, upsertOne embed now acc.2 item)) (0, table)

/-- A sequence of single-item `upsert_roadmap_items` calls, each with its own
CURRENT_TIMESTAMP. -/
def upsertRuns (embed : String → List ℚ) (table : List RoadmapRow)
    (runs : List (RoadmapItem × Nat)) : List RoadmapRow :=
  runs.foldl (fun t p => (upsertRoadmapItems embed p.2 t [p.1]).2) table

/-! ### Retrieval engine -/

/-- A result entry of `search_roadmap` in src/packages/db_mcp/server.py:
`description` is truncated at 500 characters, `relevance` is
`1 - distance`. -/
structure SearchResult where
  id : Int
  title : String
  status : String
  release_date : Option String
  products : String
  platforms : String
  description : String
  relevance : ℚ
deriving DecidableEq

/-- The description truncation of db_mcp `search_roadmap`:
`row["description"][:500] + "..."` when longer than 500 characters. -/
def truncateDescription (s : String) : String :=
  if 500 < s.length then s.take 500 ++ "..." else s

/-- The result dictionary built by db_mcp `search_roadmap` from a row `r`
whose computed cosine distance is `d`. -/
def mkSearchResult (r : RoadmapRow) (d : ℚ) : SearchResult :=
  { id := r.id
    title := r.title
    status := r.status
    release_date := r.release_date
    products := r.products
    platforms := r.platforms
    description := truncateDescription r.description
    relevance := 1 - d }

/-- `search_roadmap` from src/packages/db_mcp/server.py lines 48-95: compute
`embedding <=> query_embedding` for every stored row, order ascending by that
distance, LIMIT `nResults`, and report `relevance = 1 - distance`.  The
pgvector cosine-distance operator `<=>` is external to the repository and is
passed in as `dist`. -/
def searchRoadmapMcp (dist : List ℚ → List ℚ → ℚ) (queryEmb : List ℚ) (nResults : Nat)
    (rows : List RoadmapRow) : List SearchResult :=
  let scored := rows.map (fun r => (r, dist queryEmb r.embedding))
  let ordered := scored.mergeSort (fun a b => decide (a.2 ≤ b.2))
  (ordered.take nResults).map (fun p => mkSearchResult p.1 p.2)

/-- The characters of a string, lowercased. -/
def lowerChars (s : String) : List Char :=
  s.data.map Char.toLower

/-- Case-insensitive substring containment: the semantics of the SQL
condition `hay ILIKE -percent-pat-percent-` for a pattern without wildcard
characters. -/
def lowerContains (hay pat : String) : Bool :=
  decide (List.IsInfix (lowerChars pat) (lowerChars hay))

/-- The metadata dictionary of a `search_roadmap` result in
src/pipeline/src/database.py (`row["release_date"] or ""` turns a NULL
release date into the empty string). -/
structure SearchMetadata where
  id : Int
  title : String
  status : String
  release_date : String
  products : String
  platforms : String
deriving DecidableEq

/-- A result entry of `search_roadmap` in src/pipeline/src/database.py and
src/backend/src/database.py: document, metadata and raw distance. -/
structure SearchItem where
  document : String
  metadata : SearchMetadata
  distance : ℚ
deriving DecidableEq

/-- The SQL text of `search_roadmap` in src/pipeline/src/database.py lines
193-217 (same query shape in src/backend/src/database.py lines 231-247),
reachable only once a query embedding has been obtained: when
`filterProducts` is non-empty, restrict with
`WHERE products ILIKE ... OR ...` (one disjunct per filter term, matching
the `products` column only), then order ascending by
`embedding <=> query_embedding` and LIMIT `nResults`. -/
def searchRoadmapSql (dist : List ℚ → List ℚ → ℚ) (queryEmb : List ℚ) (nResults : Nat)
    (filterProducts : List String) (rows : List RoadmapRow) : List SearchItem :=
  let matching :=
    if filterProducts.isEmpty then rows
    else rows.filter (fun r => filterProducts.any (fun p => lowerContains r.products p))
  let scored := matching.map (fun r => (r, dist queryEmb r.embedding))
  let ordered := scored.mergeSort (fun a b => decide (a.2 ≤ b.2))
  (ordered.take nResults).map (fun p =>
    { document := p.1.document
      metadata :=
        { id := p.1.id
          title := p.1.title
          status := p.1.status
          release_date := p.1.release_date.getD ""
          products := p.1.products
          platforms := p.1.platforms }
      distance := p.2 })

/-- The `query_embedding = get_query_embedding(...)` step of
`search_roadmap`.  In src/pipeline/src/database.py line 189 the call passes
`text`, `genai_client` and `embedding_model` but omits the required
`embedding_dimensions` parameter of `get_query_embedding` (line 94); in
src/backend/src/database.py line 229 the call passes only `query` against
the four-required-argument signature at line 117.  Both therefore raise
TypeError unconditionally, before any SQL runs. -/
def getQueryEmbeddingDb : Except String (List ℚ) :=
  Except.error "TypeError: get_query_embedding() missing 1 required positional argument: embedding_dimensions"

/-- `search_roadmap` from src/pipeline/src/database.py lines 176-239 (same
structure in src/backend/src/database.py lines 223-267): obtain the query
embedding, then run the SQL.  There is no try/except, so the TypeError
raised by the embedding step escapes the function (`Except.error`). -/
def searchRoadmapDb (dist : List ℚ → List ℚ → ℚ) (nResults : Nat)
    (filterProducts : List String) (rows : List RoadmapRow) :
    Except String (List SearchItem) :=
  match getQueryEmbeddingDb with
  | Except.error e => Except.error e
  | Except.ok queryEmb => Except.ok (searchRoadmapSql dist queryEmb nResults filterProducts rows)

/-! ### Ingestion pipeline -/

/-- A raw feed item as consumed by `filter_new_items` and
`parse_roadmap_item`: the `modified` and `created` JSON fields (absent ↦
`none`) plus the remaining payload, kept opaque. -/
structure RawFeedItem where
  modified : Option String
  created : Option String
  payload : String
deriving DecidableEq

/-- Python truthiness of an optional string: `None` and `""` are falsy. -/
def pyStrTruthy : Option String → Bool
  | some s => !s.isEmpty
  | none => false

/-- Python `a or b` on optional strings: `b` when `a` is falsy. -/
def pyOrStr (a b : Option String) : Option String :=
  if pyStrTruthy a then a else b

/-- `item.get("modified") or item.get("created")` from `filter_new_items`. -/
def timestampField (item : RawFeedItem) : Option String :=
  pyOrStr item.modified item.created

/-- The keep decision of `filter_new_items` for a non-None watermark `w`
(src/packages/pipeline/src/ingestion.py lines 81-95): skip when the
timestamp string is falsy; otherwise keep iff the parsed timestamp strictly
exceeds the watermark, or the string fails to parse (`parseTs s = none`
models the ValueError/TypeError branch, which includes the item to be
safe).  `parseTs` stands for `datetime.fromisoformat` composed with the
timezone normalization. -/
def keepSince (parseTs : String → Option Int) (w : Int) (item : RawFeedItem) : Bool :=
  match timestampField item with
  | none => false
  | some s =>
    if s.isEmpty then false
    else
      match parseTs s with
      | some t => decide (w < t)
      | none => true

/-- `filter_new_items`: with no previous ingestion (`since = none`) every
item passes; otherwise items are filtered by `keepSince`. -/
def filterNewItems (parseTs : String → Option Int) (since : Option Int)
    (raw : List RawFeedItem) : List RawFeedItem :=
  match since with
  | none => raw
  | some w => raw.filter (keepSince parseTs w)

/-- The result dictionary of `ingest_roadmap` (src/src/ingestion.py); the
`count` field is the number of items processed. -/
structure IngestResult where
  success : Bool
  message : String
  count : Nat
deriving DecidableEq

/-- `fetch_roadmap_items`: the single feed fetch; a RequestException is
caught and converted into the empty list (src/src/ingestion.py lines
19-35).  `response` is the outcome of the external HTTP call. -/
def fetchRoadmapItems (response : Except String (List RawFeedItem)) : List RawFeedItem :=
  match response with
  | Except.ok items => items
  | Except.error _ => []

/-- `ingest_roadmap` (src/src/ingestion.py lines 60-88): fetch, and on an
empty fetch result return a failure result without touching the store;
otherwise parse every raw item (`parseItem` stands for
`parse_roadmap_item`) and upsert them all.  The store is threaded
explicitly so that mutation is visible in the return value. -/
def ingestRoadmap (parseItem : RawFeedItem → RoadmapItem) (embed : String → List ℚ)
    (now : Nat) (response : Except String (List RawFeedItem))
    (table : List RoadmapRow) : IngestResult × List RoadmapRow :=
  let raw := fetchRoadmapItems response
  if raw.isEmpty then
    ({ success := false, message := "No items fetched", count := 0 }, table)
  else
    let items := raw.map parseItem
    let res := upsertRoadmapItems embed now table items
    ({ success := true
       message := "Successfully ingested " ++ toString res.1 ++ " roadmap items"
       count := res.1 }, res.2)

/-! ### Customer store -/

/-- A stored row of the `customers` table (`name` carries a UNIQUE
constraint). -/
structure CustomerRow where
  id : Nat
  name : String
  description : String
  products_used : String
  priority : String
  notes : Option String
  created_at : Nat
  updated_at : Nat
deriving DecidableEq

/-- The `Customer` pydantic model (store-assigned fields omitted). -/
structure Customer where
  name : String
  description : String
  products_used : String
  priority : String
  notes : Option String
deriving DecidableEq

/-- `add_customer` (src/backend/src/database.py lines 130-145) together with
the UNIQUE constraint on `customers.name` declared in `init_db`: inserting a
duplicate name makes the INSERT raise a unique-violation error and nothing
is committed; otherwise the row is inserted with a fresh SERIAL id and the
new id is returned. -/
def addCustomer (table : List CustomerRow) (c : Customer) (now : Nat) :
    Except String Nat × List CustomerRow :=
  if table.any (fun r => r.name == c.name) then
    (Except.error "UniqueViolation: duplicate key value violates unique constraint customers_name_key", table)
  else
    let newId := (table.foldl (fun m r => max m r.id) 0) + 1
    (Except.ok newId,
      table ++ [{ id := newId, name := c.name, description := c.description,
                  products_used := c.products_used, priority := c.priority,
                  notes := c.notes, created_at := now, updated_at := now }])

/-! ### Tool dispatchers -/

/-- A JSON-ish argument value of a tool-call argument mapping. -/
inductive PyVal where
  | str (s : String)
  | int (n : Int)
  | null
deriving DecidableEq

/-- A tool-call argument mapping (`function_args`). -/
abbrev ToolArgs := List (String × PyVal)

/-- String argument extraction: a present string value, otherwise `none`. -/
def argStr (args : ToolArgs) (key : String) : Option String :=
  match args.lookup key with
  | some (PyVal.str s) => some s
  | _ => none

/-- Integer argument extraction: a present integer value, otherwise `none`. -/
def argInt (args : ToolArgs) (key : String) : Option Int :=
  match args.lookup key with
  | some (PyVal.int n) => some n
  | _ => none

/-- Python truthiness of an optional integer (`0` and `None` are falsy). -/
def pyIntTruthy : Option Int → Bool
  | some n => n != 0
  | none => false

/-- `add_customer_tool` (src/backend/src/agents/customer_agent.py lines
20-51).  In this module the handler calls `add_customer(customer)` without
the `database_url` argument that `add_customer` in
src/backend/src/database.py requires, so every call raises a TypeError,
which the surrounding try/except converts into the ✗ failure string. -/
def addCustomerTool (_name _description _products_used _priority : String)
    (_notes : Option String) : Except String String :=
  Except.ok "✗ Error adding customer: add_customer() missing 1 required positional argument: database_url"

/-- `get_customer_tool` (lines 54-82).  With a truthy `customer_id` it calls
`get_customer(customer_id)`, with a truthy `customer_name` it calls
`get_customer_by_name(customer_name)`; both callees require a
`database_url` argument that is not passed, so both branches raise an
uncaught TypeError; with neither argument it returns the prompt string. -/
def getCustomerTool (customer_id : Option Int) (customer_name : Option String) :
    Except String String :=
  if pyIntTruthy customer_id then
    Except.error "TypeError: get_customer() missing 1 required positional argument: database_url"
  else if pyStrTruthy customer_name then
    Except.error "TypeError: get_customer_by_name() missing 1 required positional argument: database_url"
  else
    Except.ok "Please provide either customer_id or customer_name."

/-- `list_customers_tool` (lines 85-103): calls `list_customers()` without
the required `database_url`, raising an uncaught TypeError. -/
def listCustomersTool : Except String String :=
  Except.error "TypeError: list_customers() missing 1 required positional argument: database_url"

/-- `update_customer_tool` (lines 106-146): with no truthy update field it
returns "No updates provided."; otherwise it calls
`update_customer(customer_id, **updates)` without the required
`database_url`, raising an uncaught TypeError. -/
def updateCustomerTool (name description products_used priority notes : Option String) :
    Except String String :=
  if pyStrTruthy name || pyStrTruthy description || pyStrTruthy products_used ||
      pyStrTruthy priority || pyStrTruthy notes then
    Except.error "TypeError: update_customer() missing 1 required positional argument: database_url"
  else
    Except.ok "No updates provided."

/-- `delete_customer_tool` (lines 149-162): calls
`delete_customer(customer_id)`, whose body in src/backend/src/database.py
(lines 211-220) starts with `get_db_connection()` — but `get_db_connection`
(line 53) requires the positional argument `database_url`, so every call
raises an uncaught TypeError. -/
def deleteCustomerTool (_customer_id : Int) : Except String String :=
  Except.error "TypeError: get_db_connection() missing 1 required positional argument: database_url"

/-- `handle_tool_call` of the customer agent
(src/backend/src/agents/customer_agent.py lines 262-275).  `Except.error`
models an exception escaping the dispatcher, `Except.ok` a returned string.
Keyword binding of the `**function_args` unpacking is modelled by the
`argStr`/`argInt` extractions; a missing required argument raises a
TypeError. -/
def handleToolCallCustomer (name : String) (args : ToolArgs) : Except String String :=
  if name = "add_customer" then
    match argStr args "name", argStr args "description", argStr args "products_used" with
    | some n, some d, some p =>
        addCustomerTool n d p ((argStr args "priority").getD "medium") (argStr args "notes")
    | _, _, _ =>
        Except.error "TypeError: add_customer_tool() missing required positional arguments"
  else if name = "get_customer" then
    getCustomerTool (argInt args "customer_id") (argStr args "customer_name")
  else if name = "list_customers" then
    listCustomersTool
  else if name = "update_customer" then
    match argInt args "customer_id" with
    | some _ =>
        updateCustomerTool (argStr args "name") (argStr args "description")
          (argStr args "products_used") (argStr args "priority") (argStr args "notes")
    | none =>
        Except.error "TypeError: update_customer_tool() missing 1 required positional argument: customer_id"
  else if name = "delete_customer" then
    match argInt args "customer_id" with
    | some cid => deleteCustomerTool cid
    | none =>
        Except.error "TypeError: delete_customer_tool() missing 1 required positional argument: customer_id"
  else
    Except.ok ("Unknown function: " ++ name)

/-- A routing request issued by the orchestrator dispatcher to a sub-agent
conversation loop. -/
inductive OrchestratorRoute where
  | roadmap (query databaseUrl : String)
  | customer (query : String)
  | impact (query : String)
deriving DecidableEq

/-- `function_args.get(key, "")` for a string-valued argument. -/
def getStrArg (args : ToolArgs) (key : String) : String :=
  (argStr args key).getD ""

/-- `handle_tool_call` of the orchestrator
(src/packages/backend/src/agents/orchestrator.py lines 110-127): the first
branch accepts both "route_to_roadmap_agent" and
"roadmap_agent_declaration"; the routed sub-agent loops are external and
are modelled by the `route` parameter. -/
def handleToolCallOrchestrator (route : OrchestratorRoute → String) (name : String)
    (args : ToolArgs) : String :=
  if name = "route_to_roadmap_agent" || name = "roadmap_agent_declaration" then
    route (OrchestratorRoute.roadmap (getStrArg args "query") (getStrArg args "database_url"))
  else if name = "route_to_customer_agent" then
    route (OrchestratorRoute.customer (getStrArg args "query"))
  else if name = "route_to_impact_agent" then
    route (OrchestratorRoute.impact (getStrArg args "query"))
  else if name = "refresh_roadmap_data" then
    "ℹ️ Roadmap data is automatically refreshed daily by the ingestion service. No manual refresh needed."
  else
    "Unknown function: " ++ name

/-! ### Conversation loop -/

/-- One element of `response.candidates[0].content.parts`: either text or a
structured function call. -/
inductive MsgPart where
  | text (s : String)
  | functionCall (name : String) (args : ToolArgs)
deriving DecidableEq

/-- `response.text`: the concatenation of the text parts of a reply. -/
def replyText (parts : List MsgPart) : String :=
  String.join (parts.filterMap fun p =>
    match p with
    | MsgPart.text s => some s
    | MsgPart.functionCall _ _ => none)

/-- The `part.function_call` test on the first content element. -/
def partFunctionCall : MsgPart → Option (String × ToolArgs)
  | MsgPart.functionCall n a => some (n, a)
  | MsgPart.text _ => none

/-- The while loop of `RoadmapAgent.query` / `OrchestratorAgent.query`
(src/packages/backend/src/agents/roadmap_agent.py lines 135-157): while the
current reply has parts, inspect only the first part; if it carries a
function call, execute it through the dispatcher and submit the result back
to the model (consuming the next scripted reply and counting one more model
exchange); otherwise stop and return `response.text`.  The scripted model
is the list `script` of its remaining replies; `none` means the script ran
out while the loop still wanted another exchange.  The returned triple is
(final text, number of model exchanges, executed tool calls in order). -/
def agentLoop (dispatch : String → ToolArgs → String) :
    List (List MsgPart) → List MsgPart → Nat → List (String × ToolArgs) →
    Option (String × Nat × List (String × ToolArgs))
  | script, current, exchanges, calls =>
    match current with
    | [] => some (replyText [], exchanges, calls)
    | part :: rest =>
      match partFunctionCall part with
      | some (n, a) =>
        let _toolResult := dispatch n a
        match script with
        | [] => none
        | next :: futures => agentLoop dispatch futures next (exchanges + 1) (calls ++ [(n, a)])
      | none => some (replyText (part :: rest), exchanges, calls)

/-- `query(user_message)`: the first model exchange sends the user message
and receives the first scripted reply, then the tool-calling loop runs. -/
def agentQuery (dispatch : String → ToolArgs → String) (script : List (List MsgPart)) :
    Option (String × Nat × List (String × ToolArgs)) :=
  match script with
  | [] => none
  | first :: rest => agentLoop dispatch rest first 1 []

/-! ### Theorems -/

/-- C5: driven by a scripted model whose first reply carries exactly one
structured function call and whose second reply carries only text, the
conversation loop performs exactly two model exchanges, executes exactly
that one call, and returns the model final text. -/
theorem C5_conversation_loop_two_exchanges (dispatch : String → ToolArgs → String)
    (n : String) (a : ToolArgs) (t : String) :
    agentQuery dispatch [[MsgPart.functionCall n a], [MsgPart.text t]] =
      some (t, 2, [(n, a)]) := by
  simp [agentQuery, agentLoop, partFunctionCall, replyText, String.join, String.empty_append]

/-- C7 evaluation: dispatching the registered tool name "delete_customer"
with a well-formed argument mapping raises a TypeError instead of returning
a string, because `delete_customer` in src/backend/src/database.py calls
`get_db_connection()` without the required `database_url` argument.  This
contradicts the spec contract that dispatch never raises. -/
theorem C7_delete_customer_dispatch_raises :
    handleToolCallCustomer "delete_customer" [("customer_id", PyVal.int 1)] =
      Except.error "TypeError: get_db_connection() missing 1 required positional argument: database_url" := by
  rfl

/-- C8: when the external feed fetch fails, `ingest_roadmap` returns a
result with `success = false`, zero items processed and the failure message
"No items fetched", and leaves the store untouched. -/
theorem C8_fetch_failure_no_mutation (parseItem : RawFeedItem → RoadmapItem)
    (embed : String → List ℚ) (now : Nat) (e : String) (table : List RoadmapRow) :
    ingestRoadmap parseItem embed now (Except.error e) table =
      ({ success := false, message := "No items fetched", count := 0 }, table) := by
  rfl

/-- C10: with a non-None watermark, a raw feed item that carries neither a
`modified` nor a `created` field is excluded by the incremental filter. -/
theorem C10_missing_timestamp_excluded (parseTs : String → Option Int) (w : Int)
    (raw : List RawFeedItem) (item : RawFeedItem)
    (hm : item.modified = none) (hc : item.created = none) :
    item ∉ filterNewItems parseTs (some w) raw := by
  intro hmem
  have h := (List.mem_filter.mp hmem).2
  simp [keepSince, timestampField, pyOrStr, pyStrTruthy, hm, hc] at h

/-- Witness for C10 at a concrete input. -/
theorem C10_missing_timestamp_excluded_witness :
    (⟨none, none, "x"⟩ : RawFeedItem) ∉
      filterNewItems (fun _ => none) (some 0) [⟨none, none, "x"⟩] :=
  C10_missing_timestamp_excluded (fun _ => none) 0 [⟨none, none, "x"⟩] ⟨none, none, "x"⟩ rfl rfl

/-- C9: adding a Customer whose name equals the name of an already-stored
customer makes the INSERT fail with a unique-constraint error and leaves
the customers table unchanged (same rows, hence same row count). -/
theorem C9_duplicate_name_add_fails_unchanged (table : List CustomerRow) (c : Customer)
    (now : Nat) (hdup : ∃ r ∈ table, r.name = c.name) :
    ∃ e, addCustomer table c now = (Except.error e, table) := by
  obtain ⟨r, hr, hname⟩ := hdup
  have hany : table.any (fun r => r.name == c.name) = true :=
    List.any_eq_true.mpr ⟨r, hr, by simp [hname]⟩
  refine ⟨"UniqueViolation: duplicate key value violates unique constraint customers_name_key", ?_⟩
  simp [addCustomer, hany]

/-- Witness for C9 at a concrete input. -/
theorem C9_duplicate_name_add_fails_unchanged_witness :
    ∃ e, addCustomer [⟨1, "Acme", "desc", "Teams", "medium", none, 0, 0⟩]
        ⟨"Acme", "other", "Word", "high", none⟩ 5 =
      (Except.error e, [⟨1, "Acme", "desc", "Teams", "medium", none, 0, 0⟩]) :=
  C9_duplicate_name_add_fails_unchanged
    [⟨1, "Acme", "desc", "Teams", "medium", none, 0, 0⟩]
    ⟨"Acme", "other", "Word", "high", none⟩ 5 (by decide)

/-- C4: each dispatcher, on a tool name that is not among its own
registered handler names, returns exactly the string
"Unknown function: <name>" and does not raise, for every argument mapping;
a name only the other dispatcher registers is still unknown here. -/
theorem C4_unknown_tool_returns_sentinel (name : String) (args : ToolArgs)
    (route : OrchestratorRoute → String) :
    (name ∉ ["add_customer", "get_customer", "list_customers",
        "update_customer", "delete_customer"] →
      handleToolCallCustomer name args = Except.ok ("Unknown function: " ++ name)) ∧
    (name ∉ ["route_to_roadmap_agent", "roadmap_agent_declaration",
        "route_to_customer_agent", "route_to_impact_agent", "refresh_roadmap_data"] →
      handleToolCallOrchestrator route name args = "Unknown function: " ++ name) := by
  constructor
  · intro hcust
    simp only [List.mem_cons, List.not_mem_nil, or_false, not_or] at hcust
    obtain ⟨h1, h2, h3, h4, h5⟩ := hcust
    simp [handleToolCallCustomer, h1, h2, h3, h4, h5]
  · intro horch
    simp only [List.mem_cons, List.not_mem_nil, or_false, not_or] at horch
    obtain ⟨g1, g2, g3, g4, g5⟩ := horch
    simp [handleToolCallOrchestrator, g1, g2, g3, g4, g5]

/-- Witness for C4 at concrete inputs, each unregistered in one dispatcher
while registered in the other: the customer dispatcher on
"refresh_roadmap_data" and the orchestrator on "add_customer". -/
theorem C4_unknown_tool_returns_sentinel_witness :
    handleToolCallCustomer "refresh_roadmap_data" [] =
      Except.ok ("Unknown function: " ++ "refresh_roadmap_data") ∧
    handleToolCallOrchestrator (fun _ => "") "add_customer" [] =
      "Unknown function: " ++ "add_customer" :=
  ⟨(C4_unknown_tool_returns_sentinel "refresh_roadmap_data" [] (fun _ => "")).1 (by decide),
    (C4_unknown_tool_returns_sentinel "add_customer" [] (fun _ => "")).2 (by decide)⟩

/-- C2: with a non-None watermark `w`, the incremental filter keeps an item
iff its modified timestamp (falling back to created, Python truthiness)
strictly exceeds `w` or fails to parse; in particular an item whose
timestamp parses to `w + 1` is included, one parsing to `w - 1` is
excluded, and one with an unparseable timestamp string is included. -/
theorem C2_incremental_filter (parseTs : String → Option Int) (w : Int)
    (raw : List RawFeedItem) :
    (∀ item, item ∈ filterNewItems parseTs (some w) raw ↔
      item ∈ raw ∧ ∃ s, timestampField item = some s ∧ s.isEmpty = false ∧
        (parseTs s = none ∨ ∃ t, parseTs s = some t ∧ w < t)) ∧
    (∀ item ∈ raw, ∀ s, item.modified = some s → s.isEmpty = false →
      parseTs s = some (w + 1) → item ∈ filterNewItems parseTs (some w) raw) ∧
    (∀ item ∈ raw, ∀ s, item.modified = some s → s.isEmpty = false →
      parseTs s = some (w - 1) → item ∉ filterNewItems parseTs (some w) raw) ∧
    (∀ item ∈ raw, ∀ s, item.modified = some s → s.isEmpty = false →
      parseTs s = none → item ∈ filterNewItems parseTs (some w) raw) := by
  have hkeep : ∀ item, keepSince parseTs w item = true ↔
      ∃ s, timestampField item = some s ∧ s.isEmpty = false ∧
        (parseTs s = none ∨ ∃ t, parseTs s = some t ∧ w < t) := by
    intro item
    unfold keepSince
    cases htf : timestampField item with
    | none => simp
    | some s =>
      cases hse : s.isEmpty with
      | false =>
        cases hp : parseTs s with
        | none => simp [hse, hp]
        | some t => simp [hse, hp]
      | true => simp [hse]
  have hmem : ∀ item, item ∈ filterNewItems parseTs (some w) raw ↔
      item ∈ raw ∧ ∃ s, timestampField item = some s ∧ s.isEmpty = false ∧
        (parseTs s = none ∨ ∃ t, parseTs s = some t ∧ w < t) := by
    intro item
    rw [show filterNewItems parseTs (some w) raw = raw.filter (keepSince parseTs w) from rfl,
      List.mem_filter, hkeep]
  have htsf : ∀ (item : RawFeedItem) (s : String), item.modified = some s →
      s.isEmpty = false → timestampField item = some s := by
    intro item s hms hse
    simp [timestampField, pyOrStr, pyStrTruthy, hms, hse]
  refine ⟨hmem, ?_, ?_, ?_⟩
  · intro item hitem s hms hse hp
    exact (hmem item).mpr ⟨hitem, s, htsf item s hms hse, hse, Or.inr ⟨w + 1, hp, by omega⟩⟩
  · intro item hitem s hms hse hp hinmem
    obtain ⟨-, s2, hts2, -, hcase⟩ := (hmem item).mp hinmem
    have hs2 : s2 = s := by
      have := htsf item s hms hse
      rw [this] at hts2
      exact (Option.some_inj.mp hts2).symm
    subst hs2
    rcases hcase with hnone | ⟨t, ht, hwt⟩
    · rw [hp] at hnone
      exact Option.noConfusion hnone
    · rw [hp] at ht
      have : t = w - 1 := (Option.some_inj.mp ht.symm)
      omega
  · intro item hitem s hms hse hp
    exact (hmem item).mpr ⟨hitem, s, htsf item s hms hse, hse, Or.inl hp⟩

/-- Witness for C2 at concrete inputs: watermark 100, an item whose
timestamp parses to 101 (kept), one parsing to 99 (dropped), one that does
not parse (kept). -/
theorem C2_incremental_filter_witness :
    ((⟨some "ts101", none, "A"⟩ : RawFeedItem) ∈
      filterNewItems (fun s => if s = "ts101" then some 101 else if s = "ts99" then some 99 else none)
        (some 100) [⟨some "ts101", none, "A"⟩, ⟨some "ts99", none, "B"⟩, ⟨some "zz", none, "C"⟩]) ∧
    ((⟨some "ts99", none, "B"⟩ : RawFeedItem) ∉
      filterNewItems (fun s => if s = "ts101" then some 101 else if s = "ts99" then some 99 else none)
        (some 100) [⟨some "ts101", none, "A"⟩, ⟨some "ts99", none, "B"⟩, ⟨some "zz", none, "C"⟩]) ∧
    ((⟨some "zz", none, "C"⟩ : RawFeedItem) ∈
      filterNewItems (fun s => if s = "ts101" then some 101 else if s = "ts99" then some 99 else none)
        (some 100) [⟨some "ts101", none, "A"⟩, ⟨some "ts99", none, "B"⟩, ⟨some "zz", none, "C"⟩]) :=
  ⟨(C2_incremental_filter _ 100 _).2.1 ⟨some "ts101", none, "A"⟩ (by decide) "ts101" rfl
      (by decide) (by decide),
    (C2_incremental_filter _ 100 _).2.2.1 ⟨some "ts99", none, "B"⟩ (by decide) "ts99" rfl
      (by decide) (by decide),
    (C2_incremental_filter _ 100 _).2.2.2 ⟨some "zz", none, "C"⟩ (by decide) "zz" rfl
      (by decide) (by decide)⟩

/-- C1: for every query embedding and positive `k`, `search_roadmap`
returns at most `k` results, ordered non-decreasingly by the distance
between the query embedding and the stored embeddings, and each result
reports `relevance = 1 - distance`.  The theorem holds for every distance
function, in particular for the external pgvector cosine distance. -/
theorem C1_search_bounded_sorted_relevance (dist : List ℚ → List ℚ → ℚ)
    (queryEmb : List ℚ) (k : Nat) (rows : List RoadmapRow) (hk : 0 < k) :
    (searchRoadmapMcp dist queryEmb k rows).length ≤ k ∧
    ((searchRoadmapMcp dist queryEmb k rows).map (fun res => 1 - res.relevance)).Pairwise (· ≤ ·) ∧
    (∀ res ∈ searchRoadmapMcp dist queryEmb k rows,
      ∃ r ∈ rows, res = mkSearchResult r (dist queryEmb r.embedding) ∧
        res.relevance = 1 - dist queryEmb r.embedding) := by
  have _ := hk
  refine ⟨?_, ?_, ?_⟩
  · show ((((rows.map (fun r => (r, dist queryEmb r.embedding))).mergeSort
      (fun a b => decide (a.2 ≤ b.2))).take k).map (fun p => mkSearchResult p.1 p.2)).length ≤ k
    rw [List.length_map]
    exact List.length_take_le k _
  · have hsorted : (((rows.map (fun r => (r, dist queryEmb r.embedding))).mergeSort
        (fun a b => decide (a.2 ≤ b.2)))).Pairwise
        (fun a b : RoadmapRow × ℚ => a.2 ≤ b.2) := by
      have h := @List.sorted_mergeSort (RoadmapRow × ℚ)
        (fun a b => decide (a.2 ≤ b.2))
        (fun a b c hab hbc => by
          simp only [decide_eq_true_eq] at *
          exact le_trans hab hbc)
        (fun a b => by
          simp only [Bool.or_eq_true, decide_eq_true_eq]
          exact le_total a.2 b.2)
        (rows.map (fun r => (r, dist queryEmb r.embedding)))
      exact h.imp (by simp)
    have htake := hsorted.sublist (List.take_sublist k _)
    show ((((rows.map (fun r => (r, dist queryEmb r.embedding))).mergeSort
      (fun a b => decide (a.2 ≤ b.2))).take k).map (fun p => mkSearchResult p.1 p.2)).map
        (fun res => 1 - res.relevance) |>.Pairwise (· ≤ ·)
    rw [List.pairwise_map, List.pairwise_map]
    refine htake.imp ?_
    intro a b hab
    simpa [mkSearchResult] using hab
  · intro res hres
    simp only [searchRoadmapMcp, List.mem_map] at hres
    obtain ⟨p, hp, hres⟩ := hres
    have hp2 : p ∈ (rows.map (fun r => (r, dist queryEmb r.embedding))).mergeSort
        (fun a b => decide (a.2 ≤ b.2)) := List.mem_of_mem_take hp
    rw [List.mem_mergeSort] at hp2
    rw [List.mem_map] at hp2
    obtain ⟨r, hr, hpr⟩ := hp2
    have hres2 : res = mkSearchResult r (dist queryEmb r.embedding) := by
      rw [← hres, ← hpr]
    exact ⟨r, hr, hres2, by rw [hres2]; rfl⟩

/-- Witness for C1 at a concrete input. -/
theorem C1_search_bounded_sorted_relevance_witness :
    (searchRoadmapMcp (fun _ _ => 0) [] 1 []).length ≤ 1 ∧
    ((searchRoadmapMcp (fun _ _ => 0) [] 1 []).map (fun res => 1 - res.relevance)).Pairwise (· ≤ ·) ∧
    (∀ res ∈ searchRoadmapMcp (fun _ _ => 0) [] 1 [],
      ∃ r ∈ ([] : List RoadmapRow), res = mkSearchResult r ((fun _ _ => (0 : ℚ)) ([] : List ℚ) r.embedding) ∧
        res.relevance = 1 - (fun _ _ => (0 : ℚ)) ([] : List ℚ) r.embedding) :=
  C1_search_bounded_sorted_relevance (fun _ _ => 0) [] 1 [] (by decide)

/-- Helper for C3: a single upsert of `item` into a table holding at most
one row keyed by `item.id` leaves exactly one row with that id, whose
mutable fields come from `item` and whose `updated_at` is the upsert time;
only `created_at` may be inherited from an existing row. -/
theorem upsertOne_filter (embed : String → List ℚ) (now : Nat) (table : List RoadmapRow)
    (item : RoadmapItem) (i : Int) (hid : item.id = i)
    (hkey : (table.filter (fun r => r.id == i)).length ≤ 1) :
    ∃ c, (upsertOne embed now table item).filter (fun r => r.id == i) =
      [{ upsertRow embed now item with created_at := c }] := by
  subst hid
  unfold upsertOne
  cases hany : table.any (fun r => r.id == item.id) with
  | false =>
    refine ⟨now, ?_⟩
    have hnil : table.filter (fun r => r.id == item.id) = [] := by
      rw [List.filter_eq_nil_iff]
      intro a ha
      have := List.any_eq_false.mp hany a ha
      simpa using this
    simp only [hany, Bool.false_eq_true, if_false, List.filter_append, hnil, List.nil_append]
    simp [upsertRow]
  | true =>
    obtain ⟨r1, hr1, hr1id⟩ := List.any_eq_true.mp hany
    have hmem1 : r1 ∈ table.filter (fun r => r.id == item.id) :=
      List.mem_filter.mpr ⟨hr1, hr1id⟩
    have hlen1 : (table.filter (fun r => r.id == item.id)).length = 1 := by
      have hpos : 0 < (table.filter (fun r => r.id == item.id)).length :=
        List.length_pos.mpr (List.ne_nil_of_mem hmem1)
      omega
    obtain ⟨r0, hr0⟩ := List.length_eq_one.mp hlen1
    have hr0mem : r0 ∈ table.filter (fun r => r.id == item.id) := by
      rw [hr0]; exact List.mem_singleton.mpr rfl
    have hr0id : (r0.id == item.id) = true := (List.mem_filter.mp hr0mem).2
    refine ⟨r0.created_at, ?_⟩
    simp only [hany, if_true]
    rw [List.filter_map]
    have hcomp : ((fun r : RoadmapRow => r.id == item.id) ∘
        (fun r => if r.id == item.id then applyConflictUpdate embed now r item else r)) =
        (fun r : RoadmapRow => r.id == item.id) := by
      funext r
      by_cases h : (r.id == item.id) = true
      · have hr : r.id = item.id := by simpa using h
        simp [hr, applyConflictUpdate]
      · have hr : ¬ r.id = item.id := by simpa using h
        simp [hr]
    rw [hcomp, hr0]
    simp only [List.map_cons, List.map_nil, hr0id, if_true]
    have hr0eq : r0.id = item.id := by simpa using hr0id
    rw [show applyConflictUpdate embed now r0 item =
      { upsertRow embed now item with created_at := r0.created_at } from by
        simp [applyConflictUpdate, hr0eq, upsertRow]]

/-- Helper for C3: over any nonempty sequence of single-item upsert calls
all keyed by id `i`, the final table holds exactly one row with id `i`,
shaped from the last call (except possibly `created_at`). -/
theorem upsertRuns_filter (embed : String → List ℚ) (i : Int) :
    ∀ (runs : List (RoadmapItem × Nat)) (hne : runs ≠ []),
      (∀ p ∈ runs, p.1.id = i) →
      ∀ table : List RoadmapRow,
        (table.filter (fun r => r.id == i)).length ≤ 1 →
        ∃ c, (upsertRuns embed table runs).filter (fun r => r.id == i) =
          [{ upsertRow embed (runs.getLast hne).2 (runs.getLast hne).1 with created_at := c }]
  | [], hne, _, _, _ => absurd rfl hne
  | [p], _, hall, table, hkey => by
    have hid : p.1.id = i := hall p (List.mem_singleton.mpr rfl)
    have := upsertOne_filter embed p.2 table p.1 i hid hkey
    simpa [upsertRuns, upsertRoadmapItems] using this
  | p :: q :: rest, _, hall, table, hkey => by
    have hid : p.1.id = i := hall p (List.mem_cons_self _ _)
    obtain ⟨c1, hc1⟩ := upsertOne_filter embed p.2 table p.1 i hid hkey
    have hkey2 : ((upsertOne embed p.2 table p.1).filter (fun r => r.id == i)).length ≤ 1 := by
      rw [hc1]; simp
    have hall2 : ∀ x ∈ q :: rest, x.1.id = i := fun x hx => hall x (List.mem_cons_of_mem _ hx)
    obtain ⟨c, hc⟩ := upsertRuns_filter embed i (q :: rest) (List.cons_ne_nil q rest) hall2
      (upsertOne embed p.2 table p.1) hkey2
    refine ⟨c, ?_⟩
    have hstep : upsertRuns embed table (p :: q :: rest) =
        upsertRuns embed (upsertOne embed p.2 table p.1) (q :: rest) := rfl
    rw [hstep, hc, List.getLast_cons (List.cons_ne_nil q rest)]

/-- C3: after any nonempty sequence of upsert calls for items with one id
over a store holding at most one row for that id, the store holds exactly
one row with that id; its mutable fields (title, description, status,
release_date, products, platforms, cloud_instances, release_phase,
document, embedding) come from the latest upserted input and `updated_at`
is the time of the latest upsert. -/
theorem C3_upsert_idempotent_per_id (embed : String → List ℚ) (i : Int)
    (table : List RoadmapRow) (runs : List (RoadmapItem × Nat)) (hne : runs ≠ [])
    (hid : ∀ p ∈ runs, p.1.id = i)
    (hkey : (table.filter (fun r => r.id == i)).length ≤ 1) :
    ∃ r, (upsertRuns embed table runs).filter (fun rr => rr.id == i) = [r] ∧
      r.id = i ∧
      r.title = (runs.getLast hne).1.title ∧
      r.description = (runs.getLast hne).1.description ∧
      r.status = (runs.getLast hne).1.status ∧
      r.release_date = (runs.getLast hne).1.public_disclosure_date ∧
      r.products = String.intercalate "," (runs.getLast hne).1.products ∧
      r.platforms = String.intercalate "," (runs.getLast hne).1.platforms ∧
      r.cloud_instances = String.intercalate "," (runs.getLast hne).1.cloud_instances ∧
      r.release_phase = (runs.getLast hne).1.release_phase ∧
      r.document = buildDocument (runs.getLast hne).1 ∧
      r.embedding = embed (buildDocument (runs.getLast hne).1) ∧
      r.updated_at = (runs.getLast hne).2 := by
  obtain ⟨c, hc⟩ := upsertRuns_filter embed i runs hne hid table hkey
  refine ⟨_, hc, ?_, rfl, rfl, rfl, rfl, rfl, rfl, rfl, rfl, rfl, rfl, rfl⟩
  exact hid (runs.getLast hne) (List.getLast_mem hne)

/-- Witness for C3 at a concrete input: two upserts of id 42 into an empty
store leave one row carrying the second item's fields. -/
theorem C3_upsert_idempotent_per_id_witness :
    ∃ r, (upsertRuns (fun _ => [1]) []
        [(⟨42, "first", "d1", "s1", none, ["P1"], ["Q1"], [], none⟩, 5),
          (⟨42, "second", "d2", "s2", some "2026-01", ["P2", "P3"], [], ["W"], some "GA"⟩, 9)]).filter
        (fun rr => rr.id == 42) = [r] ∧
      r.id = 42 ∧
      r.title = "second" ∧
      r.description = "d2" ∧
      r.status = "s2" ∧
      r.release_date = some "2026-01" ∧
      r.products = String.intercalate "," ["P2", "P3"] ∧
      r.platforms = String.intercalate "," [] ∧
      r.cloud_instances = String.intercalate "," ["W"] ∧
      r.release_phase = some "GA" ∧
      r.document = buildDocument ⟨42, "second", "d2", "s2", some "2026-01", ["P2", "P3"], [], ["W"], some "GA"⟩ ∧
      r.embedding = (fun _ => [(1 : ℚ)]) (buildDocument ⟨42, "second", "d2", "s2", some "2026-01", ["P2", "P3"], [], ["W"], some "GA"⟩) ∧
      r.updated_at = 9 :=
  C3_upsert_idempotent_per_id (fun _ => [1]) 42 []
    [(⟨42, "first", "d1", "s1", none, ["P1"], ["Q1"], [], none⟩, 5),
      (⟨42, "second", "d2", "s2", some "2026-01", ["P2", "P3"], [], ["W"], some "GA"⟩, 9)]
    (by decide) (by decide) (by decide)

/-- C6 evaluation at the failing input: every call of `search_roadmap` in
src/pipeline/src/database.py and src/backend/src/database.py — in
particular every call with a non-empty filter set — raises TypeError at
the `get_query_embedding` step, before the SQL filter, ordering or limit
can run, so the filtered ranked results the claim describes are never
returned.  The WHERE clause of the unreachable SQL text would moreover
match the `products` column only, not platforms. -/
theorem C6_search_with_filters_raises (dist : List ℚ → List ℚ → ℚ) (nResults : Nat)
    (filterProducts : List String) (rows : List RoadmapRow) :
    searchRoadmapDb dist nResults filterProducts rows =
      Except.error "TypeError: get_query_embedding() missing 1 required positional argument: embedding_dimensions" := by
  rfl
